import Mathlib

/-!
Verification of the `rust-gtk4-css-styling` demo application.

The program (src/main.rs) is a GTK4 application that
  * selects between two embedded stylesheets (dark / light) from the
    desktop theme name and a boolean dark-theme preference (`load_css`),
  * installs the selected stylesheet on the default display as a fresh
    CSS provider at application priority,
  * subscribes `load_css` to the two settings-change signals and calls it
    once eagerly on activation (`on_activate`),
  * builds one window holding one label and presents it (`on_activate`),
  * constructs the application with a fixed identifier and runs the event
    loop (`main`).

The toolkit state touched by the program is shallowly embedded:
  * `Settings` holds the two observed desktop settings;
  * `load_css` is embedded as the list of toolkit actions it performs
    (its effect trace), with the ambient `gdk::Display::default()` made
    an explicit `Option Unit` argument and `expect` rendered as an
    `Action.abort` carrying the diagnostic message;
  * `DisplayState` is the list of CSS providers installed on the default
    display, in order of addition, each with its priority;
    `gtk::StyleContext::add_provider_for_display` appends to that list;
  * the window tree built by `on_activate` is a record of the fields the
    program sets.

Rust's `str::to_lowercase` is modelled as per-character ASCII lowering
(`Char.toLower`), which agrees with it on all ASCII input; the claims and
the stylesheets involved are ASCII-only.
-/

namespace RustGtk

/-- The two build-time embedded stylesheet assets (`styles/dark.css` and
`styles/light.css`).  Their text is never inspected by the program logic,
so they are embedded as tags. -/
inductive Stylesheet
  | dark
  | light
deriving DecidableEq

/-- `startsWithChars hay pat` holds when `pat` is an initial segment of
`hay` (helper for Rust's `str::contains`). -/
def startsWithChars : List Char → List Char → Bool
  | _, [] => true
  | [], _ :: _ => false
  | h :: t, p :: ps => h == p && startsWithChars t ps

/-- `containsChars pat hay` embeds Rust's `hay.contains(pat)` for string
slices: some suffix of `hay` starts with `pat`. -/
def containsChars (pat : List Char) : List Char → Bool
  | [] => startsWithChars [] pat
  | h :: t => startsWithChars (h :: t) pat || containsChars pat t

/-- Rust's `str::to_lowercase`, restricted to ASCII case mapping. -/
def toLowerChars (l : List Char) : List Char :=
  l.map Char.toLower

/-- The two desktop settings the program reads from `gtk::Settings`:
`gtk_theme_name()` (fallible, hence `Option`) and
`is_gtk_application_prefer_dark_theme()`. -/
structure Settings where
  gtk_theme_name : Option String
  gtk_application_prefer_dark_theme : Bool
deriving DecidableEq

/-- `gtk::STYLE_PROVIDER_PRIORITY_APPLICATION` (600 in GTK4). -/
def STYLE_PROVIDER_PRIORITY_APPLICATION : Nat := 600

/-- The stylesheet choice made by the `if` in `load_css`:
dark when the lowercased theme name contains `"dark"` or the dark-theme
preference is set, light otherwise. -/
def selectStylesheet (theme_name : String) (prefer_dark : Bool) : Stylesheet :=
  if containsChars "dark".toList (toLowerChars theme_name.toList) || prefer_dark then
    Stylesheet.dark
  else
    Stylesheet.light

/-- A toolkit action performed by `load_css`: either the process aborts
with a diagnostic (Rust `expect`), or a provider loaded with the given
stylesheet is added to the default display at the given priority. -/
inductive Action
  | abort (msg : String)
  | addProviderForDisplay (s : Stylesheet) (priority : Nat)
deriving DecidableEq

/-- Effect trace of `fn load_css(settings: &gtk::Settings)`.

Mirrors the source line by line: obtain the default display (abort with
"Could not get default display." when there is none), make a fresh
provider, read the theme name (abort with "Could not get theme name."
when the lookup fails), load the selected stylesheet into the provider,
and add the provider to the display at application priority. -/
def load_css (display : Option Unit) (settings : Settings) : List Action :=
  match display with
  | none => [Action.abort "Could not get default display."]
  | some _ =>
    let priority := STYLE_PROVIDER_PRIORITY_APPLICATION
    match settings.gtk_theme_name with
    | none => [Action.abort "Could not get theme name."]
    | some theme_name =>
      [Action.addProviderForDisplay
        (selectStylesheet theme_name settings.gtk_application_prefer_dark_theme)
        priority]

/-- The diagnostic messages of a trace, in order (empty iff the
invocation did not abort). -/
def abortsOf (t : List Action) : List String :=
  t.filterMap fun a =>
    match a with
    | Action.abort m => some m
    | Action.addProviderForDisplay _ _ => none

theorem startsWithChars_iff (pat : List Char) :
    ∀ hay : List Char, startsWithChars hay pat = true ↔ ∃ r, hay = pat ++ r := by
  induction pat with
  | nil =>
    intro hay
    simp [startsWithChars]
  | cons p ps ih =>
    intro hay
    cases hay with
    | nil => simp [startsWithChars]
    | cons h t =>
      simp [startsWithChars, Bool.and_eq_true, beq_iff_eq, ih t, List.cons.injEq]

theorem containsChars_iff (pat : List Char) :
    ∀ hay : List Char, containsChars pat hay = true ↔ ∃ l r, hay = l ++ pat ++ r := by
  intro hay
  induction hay with
  | nil =>
    rw [containsChars, startsWithChars_iff]
    constructor
    · rintro ⟨r, hr⟩
      exact ⟨[], r, by simp [hr]⟩
    · rintro ⟨l, r, hr⟩
      simp only [List.nil_eq, List.append_eq_nil] at hr
      exact ⟨[], by simp [hr.1.2, hr.2]⟩
  | cons h t ih =>
    rw [containsChars, Bool.or_eq_true, startsWithChars_iff, ih]
    constructor
    · rintro (⟨r, hr⟩ | ⟨l, r, hr⟩)
      · exact ⟨[], r, by simpa using hr⟩
      · exact ⟨h :: l, r, by simp [hr]⟩
    · rintro ⟨l, r, hr⟩
      cases l with
      | nil => exact Or.inl ⟨r, by simpa using hr⟩
      | cons a l₂ =>
        simp only [List.cons_append, List.cons.injEq] at hr
        exact Or.inr ⟨l₂, r, hr.2⟩

/-- C1: For every pair (theme_name, prefer_dark), the theme selector selects
the dark stylesheet iff the case-folded theme name contains the substring
"dark" or prefer_dark is true, and the light stylesheet otherwise; in
particular ("Adwaita", false) selects light, ("Adwaita-dark", false) dark,
("HighContrast", true) dark, and ("DARK-custom", false) dark. -/
theorem C1_selection_rule :
    (∀ (theme_name : String) (prefer_dark : Bool),
        (selectStylesheet theme_name prefer_dark = Stylesheet.dark ↔
          ((∃ l r, toLowerChars theme_name.toList = l ++ "dark".toList ++ r) ∨
            prefer_dark = true)) ∧
        (selectStylesheet theme_name prefer_dark = Stylesheet.light ↔
          ¬((∃ l r, toLowerChars theme_name.toList = l ++ "dark".toList ++ r) ∨
            prefer_dark = true))) ∧
    selectStylesheet "Adwaita" false = Stylesheet.light ∧
    selectStylesheet "Adwaita-dark" false = Stylesheet.dark ∧
    selectStylesheet "HighContrast" true = Stylesheet.dark ∧
    selectStylesheet "DARK-custom" false = Stylesheet.dark := by
  refine ⟨?_, by decide, by decide, by decide, by decide⟩
  intro theme_name prefer_dark
  have key :
      (containsChars "dark".toList (toLowerChars theme_name.toList) || prefer_dark) = true ↔
        ((∃ l r, toLowerChars theme_name.toList = l ++ "dark".toList ++ r) ∨
          prefer_dark = true) := by
    rw [Bool.or_eq_true, containsChars_iff]
  constructor
  · rw [selectStylesheet, ← key]
    cases hcond :
        (containsChars "dark".toList (toLowerChars theme_name.toList) || prefer_dark) <;>
      simp [hcond]
  · rw [selectStylesheet, ← key]
    cases hcond :
        (containsChars "dark".toList (toLowerChars theme_name.toList) || prefer_dark) <;>
      simp [hcond]

/-- C10: Whenever the lowercased theme name contains "dark", the selected
stylesheet is dark regardless of prefer_dark (two runs differing only in
prefer_dark agree); when the substring check fails, the selection reduces to
the boolean preference alone. -/
theorem C10_dark_name_overrides :
    (∀ (theme_name : String) (p₁ p₂ : Bool),
        (∃ l r, toLowerChars theme_name.toList = l ++ "dark".toList ++ r) →
        selectStylesheet theme_name p₁ = Stylesheet.dark ∧
        selectStylesheet theme_name p₁ = selectStylesheet theme_name p₂) ∧
    (∀ (theme_name : String) (p : Bool),
        ¬(∃ l r, toLowerChars theme_name.toList = l ++ "dark".toList ++ r) →
        selectStylesheet theme_name p =
          (if p then Stylesheet.dark else Stylesheet.light)) := by
  constructor
  · intro theme_name p₁ p₂ hex
    have hc : containsChars "dark".toList (toLowerChars theme_name.toList) = true :=
      (containsChars_iff "dark".toList (toLowerChars theme_name.toList)).mpr hex
    constructor <;> simp only [selectStylesheet, hc] <;> simp
  · intro theme_name p hex
    have hc : containsChars "dark".toList (toLowerChars theme_name.toList) = false := by
      cases hcond : containsChars "dark".toList (toLowerChars theme_name.toList)
      · rfl
      · exact absurd ((containsChars_iff _ _).mp hcond) hex
    simp only [selectStylesheet, hc]
    cases p <;> simp

/-- Witness for C10 at concrete inputs: "Adwaita-dark" selects dark for both
preference values, and "HighContrast" with preference true reduces to the
boolean branch. -/
theorem C10_witness :
    (selectStylesheet "Adwaita-dark" false = Stylesheet.dark ∧
      selectStylesheet "Adwaita-dark" false = selectStylesheet "Adwaita-dark" true) ∧
    selectStylesheet "HighContrast" true =
      (if true then Stylesheet.dark else Stylesheet.light) :=
  ⟨C10_dark_name_overrides.1 "Adwaita-dark" false true
      ⟨"adwaita-".toList, [], by decide⟩,
    C10_dark_name_overrides.2 "HighContrast" true
      (fun hex =>
        absurd ((containsChars_iff "dark".toList
          (toLowerChars "HighContrast".toList)).mpr hex) (by decide))⟩

/-- A `gtk::CssProvider` after `load_from_data`: records which stylesheet
text it holds. -/
structure CssProvider where
  data : Stylesheet
deriving DecidableEq

/-- The default display's style state: the CSS providers installed on it by
`gtk::StyleContext::add_provider_for_display`, in order of addition, each
with the priority it was added at. -/
structure DisplayState where
  providers : List (CssProvider × Nat)
deriving DecidableEq

/-- Effect of one toolkit action on the default display: an abort leaves the
display untouched (the process dies first), and `add_provider_for_display`
appends the provider to the display's provider list. -/
def applyAction (d : DisplayState) : Action → DisplayState
  | Action.abort _ => d
  | Action.addProviderForDisplay s priority =>
      { providers := d.providers ++ [({ data := s }, priority)] }

/-- Run a trace of actions against the display. -/
def runActions (d : DisplayState) (t : List Action) : DisplayState :=
  t.foldl applyAction d

/-- One invocation of the stylesheet-loading handler with the default
display available, as a transformation of the display state. -/
def invoke (d : DisplayState) (settings : Settings) : DisplayState :=
  runActions d (load_css (some ()) settings)

/-- Highest priority among the installed providers (0 when none). -/
def maxPriority (d : DisplayState) : Nat :=
  d.providers.foldl (fun acc pr => max acc pr.2) 0

/-- The stylesheet that takes effect on the display under GTK's provider
precedence: among the providers at the highest priority, the one added last
wins. -/
def activeStylesheet (d : DisplayState) : Option Stylesheet :=
  ((d.providers.filter fun pr => pr.2 == maxPriority d).getLast?).map
    fun pr => pr.1.data

theorem foldl_max_le (c : Nat) :
    ∀ (l : List (CssProvider × Nat)) (a : Nat), (∀ pr ∈ l, pr.2 ≤ c) → a ≤ c →
      l.foldl (fun acc pr => max acc pr.2) a ≤ c := by
  intro l
  induction l with
  | nil =>
    intro a _ ha
    simpa using ha
  | cons p t ih =>
    intro a h ha
    simp only [List.foldl_cons]
    exact ih (max a p.2)
      (fun pr hpr => h pr (List.mem_cons_of_mem p hpr))
      (max_le ha (h p (List.mem_cons_self p t)))

theorem maxPriority_append (l : List (CssProvider × Nat)) (x : CssProvider × Nat)
    (h : ∀ pr ∈ l, pr.2 = x.2) :
    maxPriority { providers := l ++ [x] } = x.2 := by
  unfold maxPriority
  simp only [List.foldl_append, List.foldl_cons, List.foldl_nil]
  exact Nat.max_eq_right
    (foldl_max_le x.2 l 0 (fun pr hpr => le_of_eq (h pr hpr)) (Nat.zero_le _))

theorem activeStylesheet_append (l : List (CssProvider × Nat))
    (x : CssProvider × Nat) (h : ∀ pr ∈ l, pr.2 = x.2) :
    activeStylesheet { providers := l ++ [x] } = some x.1.data := by
  rw [activeStylesheet]
  have hx : maxPriority { providers := l ++ [x] } = x.2 := maxPriority_append l x h
  rw [hx, List.filter_append]
  have hsing : List.filter (fun pr => pr.2 == x.2) [x] = [x] := by simp
  rw [hsing, List.getLast?_concat]
  rfl

/-- C3: the stylesheet loader aborts with a diagnostic in exactly two
cases — no default display obtainable ("Could not get default display."),
and theme-name lookup failure while a settings object exists ("Could not
get theme name.") — and has no other failure point. -/
theorem C3_failure_points (display : Option Unit) (settings : Settings) :
    abortsOf (load_css display settings) =
      (if display = none then ["Could not get default display."]
       else if settings.gtk_theme_name = none then ["Could not get theme name."]
       else []) := by
  cases display with
  | none => simp [load_css, abortsOf]
  | some u =>
    cases htn : settings.gtk_theme_name with
    | none => simp [load_css, abortsOf, htn]
    | some tn => simp [load_css, abortsOf, htn]

/-- C9: the loader's failures are atomic — if an invocation of `load_css`
aborts, its trace contains no provider installation, so the display is
untouched by that invocation. -/
theorem C9_abort_installs_nothing (display : Option Unit) (settings : Settings)
    (h : ∃ msg, Action.abort msg ∈ load_css display settings) :
    ∀ (s : Stylesheet) (priority : Nat),
      Action.addProviderForDisplay s priority ∉ load_css display settings := by
  intro s priority
  cases display with
  | none => simp [load_css]
  | some u =>
    cases htn : settings.gtk_theme_name with
    | none => simp [load_css, htn]
    | some tn =>
      exfalso
      obtain ⟨msg, hmsg⟩ := h
      simp [load_css, htn] at hmsg

/-- Witness for C9: with no default display, the aborting invocation has
installed no provider. -/
theorem C9_witness :
    Action.addProviderForDisplay Stylesheet.dark 600 ∉
      load_css none
        { gtk_theme_name := some "Adwaita",
          gtk_application_prefer_dark_theme := false } :=
  C9_abort_installs_nothing none
    { gtk_theme_name := some "Adwaita",
      gtk_application_prefer_dark_theme := false }
    ⟨"Could not get default display.", by decide⟩ Stylesheet.dark 600

/-- Counterexample to C2 as stated: two invocations of the handler leave two
providers installed on the display — `add_provider_for_display` appends and
never removes, so a fresh provider does not replace the previous one and
providers do accumulate across notifications. -/
theorem C2_counterexample :
    ¬((invoke
          (invoke { providers := [] }
            { gtk_theme_name := some "Adwaita",
              gtk_application_prefer_dark_theme := false })
          { gtk_theme_name := some "Adwaita",
            gtk_application_prefer_dark_theme := false }).providers.length = 1) := by
  decide

/-- C2 amended: each successful invocation of the handler appends one fresh
provider — the provider count grows by one, so providers accumulate rather
than replace each other — and because every provider this program installs
carries the same application priority, the last-added provider takes
precedence: the stylesheet in effect after the invocation is exactly the one
that invocation selected. -/
theorem C2_amended (d : DisplayState) (settings : Settings) (tn : String)
    (htn : settings.gtk_theme_name = some tn)
    (hpri : ∀ pr ∈ d.providers, pr.2 = STYLE_PROVIDER_PRIORITY_APPLICATION) :
    (invoke d settings).providers.length = d.providers.length + 1 ∧
    activeStylesheet (invoke d settings) =
      some (selectStylesheet tn settings.gtk_application_prefer_dark_theme) := by
  have hinv : invoke d settings =
      { providers := d.providers ++
          [({ data :=
                selectStylesheet tn settings.gtk_application_prefer_dark_theme },
            STYLE_PROVIDER_PRIORITY_APPLICATION)] } := by
    simp [invoke, load_css, htn, runActions, applyAction]
  constructor
  · rw [hinv]
    simp
  · rw [hinv]
    exact activeStylesheet_append d.providers _ hpri

/-- Witness for C2's amended statement: from an empty display, one
invocation with theme "Adwaita" and the dark preference set installs exactly
one provider and puts the dark stylesheet in effect. -/
theorem C2_amended_witness :
    (invoke { providers := [] }
        { gtk_theme_name := some "Adwaita",
          gtk_application_prefer_dark_theme := true }).providers.length = 1 ∧
    activeStylesheet
        (invoke { providers := [] }
          { gtk_theme_name := some "Adwaita",
            gtk_application_prefer_dark_theme := true }) =
      some (selectStylesheet "Adwaita" true) :=
  C2_amended { providers := [] }
    { gtk_theme_name := some "Adwaita", gtk_application_prefer_dark_theme := true }
    "Adwaita" rfl (by simp)

/-- A `gtk::Label`; `text` is the argument of `gtk::Label::new`. -/
structure Label where
  text : Option String
deriving DecidableEq

/-- The fields of `gtk::ApplicationWindow` this program touches. -/
structure Window where
  child : Option Label
  default_width : Int
  default_height : Int
  presented : Bool
deriving DecidableEq

/-- `gtk::ApplicationWindow::new(application)`: a fresh window with no
child, GTK's initial default size (-1, -1), not yet presented. -/
def ApplicationWindow_new : Window :=
  { child := none, default_width := -1, default_height := -1, presented := false }

/-- `window.set_child(...)`. -/
def set_child (w : Window) (c : Option Label) : Window :=
  { w with child := c }

/-- `window.set_default_size(width, height)`. -/
def set_default_size (w : Window) (width height : Int) : Window :=
  { w with default_width := width, default_height := height }

/-- `window.present()`. -/
def present (w : Window) : Window :=
  { w with presented := true }

/-- The two settings-change signals the program subscribes to. -/
inductive SignalKind
  | preferDarkNotify
  | themeNameNotify
deriving DecidableEq

/-- A registered settings-change subscription: the signal it listens on and
the handler it invokes.  A handler receives the ambient default display and
the settings object and performs toolkit actions. -/
structure Subscription where
  signal : SignalKind
  handler : Option Unit → Settings → List Action

/-- Result of `fn on_activate(application: &gtk::Application)`: the
subscriptions registered, the trace of the eager `load_css` call (when the
default settings object existed), and the application's windows. -/
structure ActivateResult where
  subscriptions : List Subscription
  eager_load : Option (List Action)
  windows : List Window

/-- Effect of `fn on_activate`, mirroring the source: when
`gtk::Settings::default()` yields a settings object, connect `load_css` to
the dark-preference notify signal and to the theme-name notify signal and
call it once eagerly; then build one window owned by the application,
set one label "Hello, world!" as its sole child, set default size 275×50,
and present it. -/
def on_activate (settings : Option Settings) (display : Option Unit) :
    ActivateResult :=
  let themeSetup : List Subscription × Option (List Action) :=
    match settings with
    | some stg =>
        ([{ signal := SignalKind.preferDarkNotify, handler := load_css },
          { signal := SignalKind.themeNameNotify, handler := load_css }],
          some (load_css display stg))
    | none => ([], none)
  let window := ApplicationWindow_new
  let label : Label := { text := some "Hello, world!" }
  let width : Int := 275
  let height : Int := 50
  let window := set_child window (some label)
  let window := set_default_size window width height
  let window := present window
  { subscriptions := themeSetup.1, eager_load := themeSetup.2,
    windows := [window] }

/-- A change of one of the two observed desktop settings. -/
inductive SettingChange
  | preferDark
  | themeName
deriving DecidableEq

/-- Whether a settings change fires a given notify signal. -/
def matchesSignal : SettingChange → SignalKind → Bool
  | SettingChange.preferDark, SignalKind.preferDarkNotify => true
  | SettingChange.themeName, SignalKind.themeNameNotify => true
  | _, _ => false

/-- Number of handler invocations a single settings change triggers. -/
def invocationsFor (subs : List Subscription) (c : SettingChange) : Nat :=
  (subs.filter fun s => matchesSignal c s.signal).length

/-- 1 when the eager loader call was made during activation, else 0. -/
def eagerCount (r : ActivateResult) : Nat :=
  if r.eager_load.isSome then 1 else 0

/-- Total number of handler invocations after activation followed by a
sequence of settings changes: the eager call plus one invocation per
matching subscription per change. -/
def totalInvocations (r : ActivateResult) (changes : List SettingChange) : Nat :=
  eagerCount r + (changes.map (invocationsFor r.subscriptions)).sum

/-- The traces produced when a settings change fires: each matching
subscription's handler is invoked on the current display and settings. -/
def triggeredTraces (subs : List Subscription) (c : SettingChange)
    (display : Option Unit) (settings : Settings) : List (List Action) :=
  (subs.filter fun s => matchesSignal c s.signal).map
    fun s => s.handler display settings

/-- Diagnostics emitted during activation: the aborts of the eager loader
call, when one was made. -/
def activationAborts (r : ActivateResult) : List String :=
  match r.eager_load with
  | some t => abortsOf t
  | none => []

theorem invocations_count (subs : List Subscription)
    (hone : ∀ c : SettingChange, invocationsFor subs c = 1) :
    ∀ changes : List SettingChange,
      (changes.map (invocationsFor subs)).sum = changes.length := by
  intro changes
  induction changes with
  | nil => rfl
  | cons c t ih => simp [hone c, ih, Nat.add_comm]

/-- C4: after activation — with or without a settings object and display —
exactly one top-level window exists, its sole content child is a label with
text "Hello, world!", its requested default size is 275×50, and it has been
asked to be shown. -/
theorem C4_window_construction (settings : Option Settings)
    (display : Option Unit) :
    (on_activate settings display).windows.length = 1 ∧
    (on_activate settings display).windows =
      [{ child := some { text := some "Hello, world!" },
         default_width := 275, default_height := 50, presented := true }] := by
  cases settings <;> exact ⟨rfl, rfl⟩

/-- C5: stylesheet selection is a pure, deterministic function of
(theme_name, prefer_dark): equal inputs always yield the same selection, and
the trace of a triggered invocation is the same whichever of the two
subscriptions fired, since both carry the same handler and the rule is
re-evaluated from scratch each time. -/
theorem C5_pure_selection :
    (∀ (t₁ t₂ : String) (p₁ p₂ : Bool), t₁ = t₂ → p₁ = p₂ →
        selectStylesheet t₁ p₁ = selectStylesheet t₂ p₂) ∧
    (∀ (stg : Settings) (display d : Option Unit) (s : Settings)
        (c₁ c₂ : SettingChange),
        triggeredTraces (on_activate (some stg) display).subscriptions c₁ d s =
          triggeredTraces (on_activate (some stg) display).subscriptions c₂ d s) := by
  constructor
  · intro t₁ t₂ p₁ p₂ ht hp
    rw [ht, hp]
  · intro stg display d s c₁ c₂
    have h : ∀ c : SettingChange,
        triggeredTraces (on_activate (some stg) display).subscriptions c d s =
          [load_css d s] := by
      intro c
      cases c <;> rfl
    rw [h c₁, h c₂]

/-- Witness for C5: equal concrete inputs yield the same selection. -/
theorem C5_witness :
    selectStylesheet "Adwaita" false = selectStylesheet "Adwaita" false :=
  C5_pure_selection.1 "Adwaita" "Adwaita" false false rfl rfl

/-- C6: with a settings object present, activation registers exactly two
subscriptions — one on the dark-preference notify signal, one on the
theme-name notify signal — both pointing at `load_css`; the handler is
called once eagerly, and after any sequence of settings changes the total
invocation count is one plus the number of changes. -/
theorem C6_trigger_discipline (stg : Settings) (display : Option Unit)
    (changes : List SettingChange) :
    (on_activate (some stg) display).subscriptions.map Subscription.signal =
      [SignalKind.preferDarkNotify, SignalKind.themeNameNotify] ∧
    (∀ s ∈ (on_activate (some stg) display).subscriptions,
      s.handler = load_css) ∧
    (on_activate (some stg) display).eager_load = some (load_css display stg) ∧
    totalInvocations (on_activate (some stg) display) changes =
      1 + changes.length := by
  refine ⟨rfl, ?_, rfl, ?_⟩
  · intro s hs
    have hsubs : (on_activate (some stg) display).subscriptions =
        [{ signal := SignalKind.preferDarkNotify, handler := load_css },
          { signal := SignalKind.themeNameNotify, handler := load_css }] := rfl
    rw [hsubs] at hs
    simp only [List.mem_cons, List.not_mem_nil, or_false] at hs
    rcases hs with rfl | rfl <;> rfl
  · have h1 : ∀ c : SettingChange,
        invocationsFor (on_activate (some stg) display).subscriptions c = 1 := by
      intro c
      cases c <;> rfl
    have hsum :=
      invocations_count (on_activate (some stg) display).subscriptions h1 changes
    have he : eagerCount (on_activate (some stg) display) = 1 := rfl
    unfold totalInvocations
    rw [he, hsum]

/-- Witness for C6: with theme "Adwaita" and the preference unset, both
registered handlers are `load_css` and two changes after activation give
three invocations in total. -/
theorem C6_witness :
    ({ signal := SignalKind.preferDarkNotify, handler := load_css } :
        Subscription).handler = load_css ∧
    totalInvocations
        (on_activate
          (some { gtk_theme_name := some "Adwaita",
                  gtk_application_prefer_dark_theme := false }) (some ()))
        [SettingChange.preferDark, SettingChange.themeName] = 3 :=
  ⟨(C6_trigger_discipline
      { gtk_theme_name := some "Adwaita",
        gtk_application_prefer_dark_theme := false } (some ()) []).2.1
      { signal := SignalKind.preferDarkNotify, handler := load_css }
      (show _ ∈
          [({ signal := SignalKind.preferDarkNotify, handler := load_css } :
            Subscription),
            { signal := SignalKind.themeNameNotify, handler := load_css }] from
        List.mem_cons_self _ _),
    (C6_trigger_discipline
      { gtk_theme_name := some "Adwaita",
        gtk_application_prefer_dark_theme := false } (some ())
      [SettingChange.preferDark, SettingChange.themeName]).2.2.2⟩

/-- C8: when no settings object is available at activation, no subscription
is registered, the loader is never invoked, no abort occurs, and the window
is still built with its label, sized 275×50, and presented. -/
theorem C8_no_settings (display : Option Unit) :
    (on_activate none display).subscriptions = [] ∧
    (on_activate none display).eager_load = none ∧
    activationAborts (on_activate none display) = [] ∧
    (on_activate none display).windows =
      [{ child := some { text := some "Hello, world!" },
         default_width := 275, default_height := 50, presented := true }] :=
  ⟨rfl, rfl, rfl, rfl⟩

/-- The application identifier passed to
`gtk::Application::builder().application_id(...)`. -/
def APP_ID : String := "com.example.gtk4-dark-mode"

/-- A step of `fn main`, in the order main performs them. -/
inductive MainStep
  | buildApp (application_id : String)
  | connectActivate
  | run
deriving DecidableEq

/-- The configured application: its identifier and the registered
activation handler. -/
structure AppConfig where
  application_id : String
  activate : Option Settings → Option Unit → ActivateResult

/-- `gtk::Application::builder().application_id(id).build()` followed by
`app.connect_activate(on_activate)`: the identifier is stored and the
handler registered; nothing else in the program reads the identifier. -/
def buildApp (id : String) : AppConfig :=
  { application_id := id, activate := on_activate }

/-- The application as configured by `fn main`. -/
def main_app : AppConfig := buildApp APP_ID

/-- The steps of `fn main`, in order: build the application with the fixed
identifier, register the activation handler, run the event loop. -/
def main_steps : List MainStep :=
  [MainStep.buildApp APP_ID, MainStep.connectActivate, MainStep.run]

/-- C7: main constructs the application with identifier
"com.example.gtk4-dark-mode", registers the activation handler strictly
before handing control to the event loop, and the identifier has no other
runtime effect: the registered behaviour is identical for every
identifier. -/
theorem C7_entry_point :
    main_app.application_id = "com.example.gtk4-dark-mode" ∧
    main_steps =
      [MainStep.buildApp "com.example.gtk4-dark-mode",
        MainStep.connectActivate, MainStep.run] ∧
    (∃ i j : Nat, i < j ∧ main_steps[i]? = some MainStep.connectActivate ∧
      main_steps[j]? = some MainStep.run) ∧
    (∀ id₁ id₂ : String, (buildApp id₁).activate = (buildApp id₂).activate) :=
  ⟨rfl, rfl, ⟨1, 2, by decide, rfl, rfl⟩, fun _ _ => rfl⟩

end RustGtk
